import Mathlib

/-!
Shallow embedding of the oneDNN quantization-descriptor data model from
`src/common/primitive_attr_quant.hpp` (structs `quant_entry_t`,
`quant_entries_t`, `scales_t`, `zero_points_t`), together with theorems
settling the specification claims about it.

Machine integers (`int`, `dim_t`) are modelled as `Int`; argument ids
(`std::map<int, ...>` keys, nonnegative in the API) as `Nat`; the
fixed-capacity `dims_t` array (`int64_t[DNNL_MAX_NDIMS]`) as a `List Int`
of length 12.
-/

set_option autoImplicit false

namespace OneDNNQuant

/-- `status_t` values used by this translation unit. -/
inductive status_t where
  | success
  | invalid_arguments
  | unimplemented
  deriving DecidableEq, Repr

/-- The `data_type_t` values relevant to quantization descriptors:
`undef` sentinel, the two policy defaults (`f32`, `s32`) and a few
concrete element types. -/
inductive data_type_t where
  | undef
  | f16
  | bf16
  | f32
  | s32
  | s8
  | u8
  deriving DecidableEq, Repr

/-- `DNNL_MAX_NDIMS`: capacity of a `dims_t` array. -/
def DNNL_MAX_NDIMS : Nat := 12

/-- `INT_MIN` for 32-bit `int`, used as the unset-mask sentinel. -/
def INT_MIN : Int := -2147483648

/-- Well-known argument ids from `dnnl_types.h` (not under `src/`; the
numeric values are the public oneDNN API constants and, per the spec,
their exact values are policy configuration). -/
def DNNL_ARG_SRC : Nat := 1

/-- `DNNL_ARG_SRC_1` from `dnnl_types.h`. -/
def DNNL_ARG_SRC_1 : Nat := 2

/-- `DNNL_ARG_SRC_2` from `dnnl_types.h`. -/
def DNNL_ARG_SRC_2 : Nat := 3

/-- `DNNL_ARG_DST` from `dnnl_types.h`. -/
def DNNL_ARG_DST : Nat := 17

/-- `DNNL_ARG_WEIGHTS` from `dnnl_types.h`. -/
def DNNL_ARG_WEIGHTS : Nat := 33

/-- `DNNL_ARG_MULTIPLE_SRC` flag bit from `dnnl_types.h`. -/
def DNNL_ARG_MULTIPLE_SRC : Nat := 1024

/-- `DNNL_ARG_ATTR_POST_OP_DW` tag bit from `dnnl_types.h`. -/
def DNNL_ARG_ATTR_POST_OP_DW : Nat := 16384

/-- `utils::array_copy(dst, src, n)`: the first `n` slots of `dst` become
`src`'s, the rest keep their old contents. -/
def array_copy (dst src : List Int) (n : Int) : List Int :=
  src.take n.toNat ++ dst.drop n.toNat

/-- `utils::array_cmp(a, b, n)`: element-wise comparison of the first `n`
slots. -/
def array_cmp (a b : List Int) (n : Int) : Bool :=
  a.take n.toNat == b.take n.toNat

/-- `quant_entry_t::entry_type` bit values. -/
def entry_type_NONE : Nat := 0

/-- `DNNL` bit of `quant_entry_t::entry_type`. -/
def entry_type_DNNL : Nat := 1

/-- `OV_SCALES` bit of `quant_entry_t::entry_type`. -/
def entry_type_OV_SCALES : Nat := 2

/-- `OV_ZERO_POINTS` bit of `quant_entry_t::entry_type`. -/
def entry_type_OV_ZERO_POINTS : Nat := 4

/-- `quant_entry_t`: one quantization descriptor with three channels
(native / scale / weight-zero-point), mirroring the C++ fields. -/
structure quant_entry_t where
  data_type_ : data_type_t
  group_ndims_ : Int
  group_dims_ : List Int
  mask_ : Int
  is_set_ : Bool
  type_ : Nat
  is_set_scale : Bool
  ndims_scale : Int
  mask_scale : Int
  dims_scale : List Int
  data_type_scale : data_type_t
  is_set_wei : Bool
  ndims_wei : Int
  mask_wei : Int
  dims_wei : List Int
  data_type_wei : data_type_t
  deriving DecidableEq, Repr

/-- A `dims_t {}` zero-initialized array. -/
def zero_dims : List Int := List.replicate DNNL_MAX_NDIMS 0

/-- `default_quant_entry()`: the default-constructed sentinel. -/
def default_quant_entry : quant_entry_t where
  data_type_ := .undef
  group_ndims_ := 0
  group_dims_ := zero_dims
  mask_ := INT_MIN
  is_set_ := false
  type_ := entry_type_NONE
  is_set_scale := false
  ndims_scale := 0
  mask_scale := INT_MIN
  dims_scale := zero_dims
  data_type_scale := .undef
  is_set_wei := false
  ndims_wei := 0
  mask_wei := INT_MIN
  dims_wei := zero_dims
  data_type_wei := .s32

namespace quant_entry_t

/-- `quant_entry_t::set(mask, data_type, group_ndims, group_dims)`
(always returns `status::success`, so the status is omitted). -/
def set (e : quant_entry_t) (mask : Int) (data_type : data_type_t)
    (group_ndims : Int) (group_dims : List Int) : quant_entry_t :=
  { e with
    type_ := e.type_ ||| entry_type_DNNL
    is_set_ := true
    mask_ := mask
    data_type_ := data_type
    group_ndims_ := group_ndims
    group_dims_ :=
      if 0 < group_ndims then array_copy e.group_dims_ group_dims group_ndims
      else e.group_dims_ }

/-- `quant_entry_t::set_scales(dims, ndims, data_type, mask)` (defaults
`data_type = f32`, `mask = 1` are supplied at call sites). -/
def set_scales (e : quant_entry_t) (dims : List Int) (ndims : Int)
    (data_type : data_type_t) (mask : Int) : quant_entry_t :=
  { e with
    type_ := e.type_ ||| entry_type_OV_SCALES
    is_set_scale := true
    ndims_scale := ndims
    mask_scale := mask
    data_type_scale := data_type
    dims_scale :=
      if 0 < ndims then array_copy e.dims_scale dims ndims
      else e.dims_scale }

/-- `quant_entry_t::set_zero_points(dims, ndims, data_type)` (the
three-argument overload, `mask_wei` fixed to 1, no native cross-write). -/
def set_zero_points (e : quant_entry_t) (dims : List Int) (ndims : Int)
    (data_type : data_type_t) : quant_entry_t :=
  { e with
    type_ := e.type_ ||| entry_type_OV_ZERO_POINTS
    is_set_wei := true
    ndims_wei := ndims
    mask_wei := 1
    dims_wei :=
      if 0 < ndims then array_copy e.dims_wei dims ndims
      else e.dims_wei
    data_type_wei := data_type }

/-- `quant_entry_t::set_zero_points(dims, ndims, data_type, mask)` (the
four-argument overload): configures the zero-point channel and, when
`ndims > 0`, also cross-writes `dims`/`ndims` into the native channel's
group-shape fields. -/
def set_zero_points_grouped (e : quant_entry_t) (dims : List Int)
    (ndims : Int) (data_type : data_type_t) (mask : Int) : quant_entry_t :=
  { e with
    type_ := e.type_ ||| entry_type_DNNL
    is_set_wei := true
    ndims_wei := ndims
    mask_wei := mask
    dims_wei :=
      if 0 < ndims then array_copy e.dims_wei dims ndims
      else e.dims_wei
    group_ndims_ := if 0 < ndims then ndims else e.group_ndims_
    group_dims_ :=
      if 0 < ndims then array_copy e.group_dims_ dims ndims
      else e.group_dims_
    data_type_wei := data_type }

/-- `quant_entry_t::set(const quant_entry_t &other)` (also the body of
`operator=`). Note: the source guards `dims_scale` and `dims_wei` with
`utils::array_cmp` — a pure comparison whose result is discarded — not
`utils::array_copy`, so those two arrays are left unchanged; the
embedding reproduces that behaviour. -/
def set_other (e other : quant_entry_t) : quant_entry_t :=
  { e with
    type_ := other.type_
    is_set_ := other.is_set_
    mask_ := other.mask_
    data_type_ := other.data_type_
    group_ndims_ := other.group_ndims_
    group_dims_ :=
      if 0 < other.group_ndims_ then
        array_copy e.group_dims_ other.group_dims_ other.group_ndims_
      else e.group_dims_
    is_set_scale := other.is_set_scale
    mask_scale := other.mask_scale
    data_type_scale := other.data_type_scale
    ndims_scale := other.ndims_scale
    dims_scale := e.dims_scale
    is_set_wei := other.is_set_wei
    mask_wei := other.mask_wei
    data_type_wei := other.data_type_wei
    ndims_wei := other.ndims_wei
    dims_wei := e.dims_wei }

/-- `quant_entry_t::operator==`: all three channels' scalar fields, with
each dims array compared (over the first `ndims` slots) only when that
channel's `ndims` is positive. -/
def equals (a b : quant_entry_t) : Bool :=
  (a.type_ == b.type_ && a.is_set_ == b.is_set_ && a.mask_ == b.mask_
      && a.data_type_ == b.data_type_
      && a.group_ndims_ == b.group_ndims_
      && (!decide (0 < a.group_ndims_)
          || array_cmp a.group_dims_ b.group_dims_ a.group_ndims_))
  && (a.is_set_scale == b.is_set_scale && a.mask_scale == b.mask_scale
      && a.data_type_scale == b.data_type_scale
      && a.ndims_scale == b.ndims_scale
      && (!decide (0 < a.ndims_scale)
          || array_cmp a.dims_scale b.dims_scale a.ndims_scale))
  && (a.is_set_wei == b.is_set_wei && a.mask_wei == b.mask_wei
      && a.data_type_wei == b.data_type_wei
      && a.ndims_wei == b.ndims_wei
      && (!decide (0 < a.ndims_wei)
          || array_cmp a.dims_wei b.dims_wei a.ndims_wei))

/-- `quant_entry_t::has_default_values()`. -/
def has_default_values (e : quant_entry_t) : Bool :=
  e.equals default_quant_entry

/-- `quant_entry_t::has_default_groups()`. -/
def has_default_groups (e : quant_entry_t) : Bool :=
  e.group_ndims_ == default_quant_entry.group_ndims_

/-- `quant_entry_t::get_mask()`: zero-point → native → scale → `INT_MIN`. -/
def get_mask (e : quant_entry_t) : Int :=
  if e.is_set_wei then e.mask_wei
  else if e.is_set_ then e.mask_
  else if e.is_set_scale then e.mask_scale
  else INT_MIN

/-- `quant_entry_t::get_data_type()`: zero-point → native → scale →
`undef`. -/
def get_data_type (e : quant_entry_t) : data_type_t :=
  if e.is_set_wei then e.data_type_wei
  else if e.is_set_ then e.data_type_
  else if e.is_set_scale then e.data_type_scale
  else (.undef)

/-- `quant_entry_t::get_dims()`: zero-point → native → scale → a static
zero-initialized array. -/
def get_dims (e : quant_entry_t) : List Int :=
  if e.is_set_wei then e.dims_wei
  else if e.is_set_ then e.group_dims_
  else if e.is_set_scale then e.dims_scale
  else zero_dims

/-- `quant_entry_t::get_ndims()`: zero-point → native → scale → 0. -/
def get_ndims (e : quant_entry_t) : Int :=
  if e.is_set_wei then e.ndims_wei
  else if e.is_set_ then e.group_ndims_
  else if e.is_set_scale then e.ndims_scale
  else 0

/-- `quant_entry_t::get_group(d)`: 1 when no grouping was ever requested,
0 on an out-of-bound index, otherwise `group_dims_[d]`. -/
def get_group (e : quant_entry_t) (d : Int) : Int :=
  if e.group_ndims_ == default_quant_entry.group_ndims_ then 1
  else if e.group_ndims_ ≤ d then 0
  else e.group_dims_.getD d.toNat 0

end quant_entry_t

/-- `std::map<int, quant_entry_t>::find`: first entry with the given key. -/
def map_find : List (Nat × quant_entry_t) → Nat → Option quant_entry_t
  | [], _ => none
  | (k, v) :: rest, arg => if arg = k then some v else map_find rest arg

/-- `entries_[arg]` followed by a mutating member call `f`: on an absent
key `std::map::operator[]` default-constructs the entry first; the key
order (`std::map` is sorted) is preserved. -/
def map_update : List (Nat × quant_entry_t) → Nat →
    (quant_entry_t → quant_entry_t) → List (Nat × quant_entry_t)
  | [], arg, f => [(arg, f default_quant_entry)]
  | (k, v) :: rest, arg, f =>
    if arg < k then (arg, f default_quant_entry) :: (k, v) :: rest
    else if arg = k then (arg, f v) :: rest
    else (k, v) :: map_update rest arg f

/-- The `std::map` representation invariant: keys strictly increase. -/
def sorted_keys : List (Nat × quant_entry_t) → Bool
  | [] => true
  | [_] => true
  | (k, _) :: (k2, v2) :: rest => k < k2 && sorted_keys ((k2, v2) :: rest)

/-- `std::map::operator==` with `quant_entry_t::operator==` on values:
same size, and pairwise equal keys and values in order. -/
def entries_eq : List (Nat × quant_entry_t) → List (Nat × quant_entry_t) → Bool
  | [], [] => true
  | (k, v) :: rest, (k2, v2) :: rest2 =>
    k == k2 && v.equals v2 && entries_eq rest rest2
  | _, _ => false

/-- `quant_entries_t`: an ordered map from argument id to descriptor plus
the inheritor-fixed default data type. The virtual `check_arg` predicate
is passed explicitly to the operations that consult it. -/
structure quant_entries_t where
  entries_ : List (Nat × quant_entry_t)
  default_data_type_ : data_type_t
  deriving DecidableEq, Repr

namespace quant_entries_t

/-- `quant_entries_t::get(arg)`: the stored descriptor, or the default
sentinel when absent. -/
def get (s : quant_entries_t) (arg : Nat) : quant_entry_t :=
  (map_find s.entries_ arg).getD default_quant_entry

/-- `quant_entries_t::set(arg, mask, data_type, group_ndims, group_dims)`
(the virtual base version, used by `scales_t`): gated by the policy's
`check_arg`. -/
def set (check_arg : Nat → Bool) (s : quant_entries_t) (arg : Nat)
    (mask : Int) (data_type : data_type_t) (group_ndims : Int)
    (group_dims : List Int) : status_t × quant_entries_t :=
  if !check_arg arg then (.invalid_arguments, s)
  else (.success,
    { s with entries_ := map_update s.entries_ arg (fun e => e.set mask data_type group_ndims group_dims) })

/-- `quant_entries_t::set(arg, other)`: unconditional overwrite used for
assignment / removal; performs no argument-validity check and always
succeeds (`quant_entry_t::set(other)` returns `success`).
`zero_points_t::set(arg, other)` delegates here unchanged. -/
def set_entry (s : quant_entries_t) (arg : Nat) (other : quant_entry_t) :
    status_t × quant_entries_t :=
  (.success,
    { s with entries_ := map_update s.entries_ arg (fun e => e.set_other other) })

/-- `quant_entries_t::set_scales(arg, dims, ndims, data_type)`: gated by
the policy's `check_arg`. -/
def set_scales (check_arg : Nat → Bool) (s : quant_entries_t) (arg : Nat)
    (dims : List Int) (ndims : Int) (data_type : data_type_t) :
    status_t × quant_entries_t :=
  if !check_arg arg then (.invalid_arguments, s)
  else (.success,
    { s with entries_ := map_update s.entries_ arg (fun e => e.set_scales dims ndims data_type 1) })

/-- `quant_entries_t::set_zero_points(arg, dims, ndims, data_type)`:
rejects every argument other than `DNNL_ARG_WEIGHTS` with
`status::unimplemented`. -/
def set_zero_points (s : quant_entries_t) (arg : Nat) (dims : List Int)
    (ndims : Int) (data_type : data_type_t) : status_t × quant_entries_t :=
  if arg ≠ DNNL_ARG_WEIGHTS then (.unimplemented, s)
  else (.success,
    { s with entries_ := map_update s.entries_ arg (fun e => e.set_zero_points dims ndims data_type) })

/-- `quant_entries_t::has_default_property(supported_args, predicate)`:
every stored entry either satisfies the predicate or carries an exempt
argument id. -/
def has_default_property (s : quant_entries_t) (supported_args : List Nat)
    (predicate : quant_entry_t → Bool) : Bool :=
  s.entries_.all (fun p => predicate p.2 || supported_args.contains p.1)

/-- `quant_entries_t::has_default_values(arg)`. -/
def has_default_values_arg (s : quant_entries_t) (arg : Nat) : Bool :=
  (s.get arg).has_default_values

/-- `quant_entries_t::has_default_values(supported_args)`. -/
def has_default_values (s : quant_entries_t) (supported_args : List Nat) : Bool :=
  s.has_default_property supported_args (fun e => e.has_default_values)

/-- `quant_entries_t::has_default_data_type(arg)`. -/
def has_default_data_type_arg (s : quant_entries_t) (arg : Nat) : Bool :=
  (s.get arg).get_data_type == s.default_data_type_
    || (s.get arg).get_data_type == data_type_t.undef

/-- `quant_entries_t::has_default_groups(arg)`. -/
def has_default_groups_arg (s : quant_entries_t) (arg : Nat) : Bool :=
  (s.get arg).has_default_groups

/-- `quant_entries_t::has_default_groups(supported_args)`. -/
def has_default_groups (s : quant_entries_t) (supported_args : List Nat) : Bool :=
  s.has_default_property supported_args (fun e => e.has_default_groups)

/-- `quant_entries_t::get_mask(arg)`. -/
def get_mask (s : quant_entries_t) (arg : Nat) : Int :=
  (s.get arg).get_mask

/-- `quant_entries_t::get_data_type(arg)`. -/
def get_data_type (s : quant_entries_t) (arg : Nat) : data_type_t :=
  (s.get arg).get_data_type

/-- `quant_entries_t::get_dims(arg)`. -/
def get_dims (s : quant_entries_t) (arg : Nat) : List Int :=
  (s.get arg).get_dims

/-- `quant_entries_t::get_ndims(arg)`. -/
def get_ndims (s : quant_entries_t) (arg : Nat) : Int :=
  (s.get arg).get_ndims

/-- `quant_entries_t::get_group(arg, d)`. -/
def get_group (s : quant_entries_t) (arg : Nat) (d : Int) : Int :=
  (s.get arg).get_group d

/-- `quant_entries_t::operator==`: compares only the entries map (key set
plus values). -/
def equals (a b : quant_entries_t) : Bool :=
  entries_eq a.entries_ b.entries_

end quant_entries_t

/-- `scales_t::check_arg(arg)`. -/
def scales_check_arg (arg : Nat) : Bool :=
  arg == DNNL_ARG_SRC || arg == DNNL_ARG_WEIGHTS || arg == DNNL_ARG_DST
    || arg == DNNL_ARG_SRC_1
    || (arg &&& DNNL_ARG_MULTIPLE_SRC) != 0
    || arg == (DNNL_ARG_ATTR_POST_OP_DW ||| DNNL_ARG_SRC)
    || arg == (DNNL_ARG_ATTR_POST_OP_DW ||| DNNL_ARG_WEIGHTS)
    || arg == (DNNL_ARG_ATTR_POST_OP_DW ||| DNNL_ARG_DST)
    || arg == DNNL_ARG_SRC_2

/-- `zero_points_t::check_arg(arg)`. -/
def zero_points_check_arg (arg : Nat) : Bool :=
  arg == DNNL_ARG_SRC || arg == DNNL_ARG_WEIGHTS || arg == DNNL_ARG_DST
    || arg == DNNL_ARG_SRC_2

/-- A freshly constructed `scales_t` (empty map, `f32` default type). -/
def scales_init : quant_entries_t := ⟨[], .f32⟩

/-- A freshly constructed `zero_points_t` (empty map, `s32` default
type). -/
def zero_points_init : quant_entries_t := ⟨[], .s32⟩

/-- `scales_t`'s inherited `quant_entries_t::set` with its `check_arg`. -/
def scales_set (s : quant_entries_t) (arg : Nat) (mask : Int)
    (data_type : data_type_t) (group_ndims : Int) (group_dims : List Int) :
    status_t × quant_entries_t :=
  quant_entries_t.set scales_check_arg s arg mask data_type group_ndims group_dims

/-- `scales_t`'s inherited `quant_entries_t::set_scales`. -/
def scales_set_scales (s : quant_entries_t) (arg : Nat) (dims : List Int)
    (ndims : Int) (data_type : data_type_t) : status_t × quant_entries_t :=
  quant_entries_t.set_scales scales_check_arg s arg dims ndims data_type

/-- `zero_points_t::set(arg, mask, data_type, group_ndims, group_dims)`
(the override): after the `check_arg` gate, the `DNNL_ARG_WEIGHTS`
argument is routed through the grouped/cross-writing
`set_zero_points(dims, ndims, data_type, mask)`, every other accepted
argument through the plain native `quant_entry_t::set`. -/
def zero_points_set (s : quant_entries_t) (arg : Nat) (mask : Int)
    (data_type : data_type_t) (group_ndims : Int) (group_dims : List Int) :
    status_t × quant_entries_t :=
  if !zero_points_check_arg arg then (.invalid_arguments, s)
  else if arg = DNNL_ARG_WEIGHTS then
    (.success,
      { s with entries_ := map_update s.entries_ arg (fun e => e.set_zero_points_grouped group_dims group_ndims data_type mask) })
  else
    (.success,
      { s with entries_ := map_update s.entries_ arg (fun e => e.set mask data_type group_ndims group_dims) })

/-! ### Serialization

The bodies of `quant_entry_t::serialize` / `quant_entry_t::deserialize`
and `quant_entries_t::serialize` / `scales_t::deserialize` /
`zero_points_t::deserialize` live in `primitive_attr_quant.cpp`, which is
not part of the given sources; they are modelled here from the spec's
serialization contract. The wire stream is modelled as a list of scalar
values. -/

/-- Modelled from the spec: integer code of a `data_type_t` on the wire
(the concrete codes of the missing encoder are unknown; any injective
coding satisfies the contract). -/
def dt_code : data_type_t → Int
  | .undef => 0
  | .f16 => 1
  | .bf16 => 2
  | .f32 => 3
  | .s32 => 4
  | .s8 => 5
  | .u8 => 6

/-- Modelled from the spec: decoder for `dt_code`; an unknown code is a
malformed-encoding failure. -/
def dt_decode (c : Int) : Option data_type_t :=
  if c = 0 then some .undef
  else if c = 1 then some .f16
  else if c = 2 then some .bf16
  else if c = 3 then some .f32
  else if c = 4 then some .s32
  else if c = 5 then some .s8
  else if c = 6 then some .u8
  else none

/-- A `bool` on the wire. -/
def bool_to_int (b : Bool) : Int := if b then 1 else 0

/-- Read one scalar from the stream (`deserializer_t::pop`). -/
def read_int : List Int → Option (Int × List Int)
  | [] => none
  | x :: rest => some (x, rest)

/-- Read `n` scalars from the stream. -/
def read_ints : Nat → List Int → Option (List Int × List Int)
  | 0, s => some ([], s)
  | n + 1, s => do
    let (x, s1) ← read_int s
    let (xs, s2) ← read_ints n s1
    some (x :: xs, s2)

/-- Modelled from the spec: one channel's wire image — configured flag,
mask, data type, then its dims sequence prefixed by its rank (only the
first `ndims` slots of the fixed-capacity array are emitted). -/
def serialize_channel (flag : Bool) (mask : Int) (data_type : data_type_t)
    (ndims : Int) (dims : List Int) : List Int :=
  [bool_to_int flag, mask, dt_code data_type, ndims] ++ dims.take ndims.toNat

/-- Modelled from the spec: decoder for one channel; a rank outside
`[0, DNNL_MAX_NDIMS]` is a malformed-encoding failure. The decoded dims
array is padded back to full capacity with zeros, as in a
default-constructed `dims_t`. -/
def read_channel (s : List Int) :
    Option ((Bool × Int × data_type_t × Int × List Int) × List Int) := do
  let (f, s1) ← read_int s
  let (m, s2) ← read_int s1
  let (c, s3) ← read_int s2
  let dt ← dt_decode c
  let (n, s4) ← read_int s3
  if 0 ≤ n ∧ n ≤ (DNNL_MAX_NDIMS : Int) then do
    let (ds, s5) ← read_ints n.toNat s4
    some ((f != 0, m, dt, n, ds ++ List.replicate (DNNL_MAX_NDIMS - n.toNat) 0), s5)
  else none

/-- Modelled from the spec: `quant_entry_t::serialize` — the channel
bitset followed by the three channels (native, scale, zero-point) in
fixed order. -/
def quant_entry_t.serialize (e : quant_entry_t) : List Int :=
  [(e.type_ : Int)]
    ++ serialize_channel e.is_set_ e.mask_ e.data_type_ e.group_ndims_ e.group_dims_
    ++ serialize_channel e.is_set_scale e.mask_scale e.data_type_scale e.ndims_scale e.dims_scale
    ++ serialize_channel e.is_set_wei e.mask_wei e.data_type_wei e.ndims_wei e.dims_wei

/-- Modelled from the spec: `quant_entry_t::deserialize` — fails
(`None`, the malformed-encoding error) on a channel bitset outside the
valid range or on an out-of-bound rank. -/
def quant_entry_t.deserialize (s : List Int) :
    Option (quant_entry_t × List Int) := do
  let (t, s1) ← read_int s
  if 0 ≤ t ∧ t < 8 then do
    let (ch1, s2) ← read_channel s1
    let (ch2, s3) ← read_channel s2
    let (ch3, s4) ← read_channel s3
    some ({ data_type_ := ch1.2.2.1, group_ndims_ := ch1.2.2.2.1,
            group_dims_ := ch1.2.2.2.2, mask_ := ch1.2.1, is_set_ := ch1.1,
            type_ := t.toNat,
            is_set_scale := ch2.1, ndims_scale := ch2.2.2.2.1,
            mask_scale := ch2.2.1, dims_scale := ch2.2.2.2.2,
            data_type_scale := ch2.2.2.1,
            is_set_wei := ch3.1, ndims_wei := ch3.2.2.2.1,
            mask_wei := ch3.2.1, dims_wei := ch3.2.2.2.2,
            data_type_wei := ch3.2.2.1 }, s4)
  else none

/-- Modelled from the spec: wire image of the ordered entry list — each
argument id followed by its descriptor. -/
def serialize_entries_list : List (Nat × quant_entry_t) → List Int
  | [] => []
  | (k, e) :: rest => [(k : Int)] ++ e.serialize ++ serialize_entries_list rest

/-- Modelled from the spec: `quant_entries_t::serialize` — the entry
count followed by the entries in map (sorted-key) order. -/
def quant_entries_t.serialize (s : quant_entries_t) : List Int :=
  [(s.entries_.length : Int)] ++ serialize_entries_list s.entries_

/-- Modelled from the spec: entry-list decoder for
`scales_t::deserialize` / `zero_points_t::deserialize`. -/
def deserialize_entries_list :
    Nat → List Int → Option (List (Nat × quant_entry_t) × List Int)
  | 0, s => some ([], s)
  | n + 1, s => do
    let (k, s1) ← read_int s
    if 0 ≤ k then do
      let (e, s2) ← quant_entry_t.deserialize s1
      let (rest, s3) ← deserialize_entries_list n s2
      some ((k.toNat, e) :: rest, s3)
    else none

/-- Modelled from the spec: `quant_entries_t` decoder — the recovered
entry map. -/
def quant_entries_t.deserialize (s : List Int) :
    Option (List (Nat × quant_entry_t) × List Int) := do
  let (n, s1) ← read_int s
  if 0 ≤ n then deserialize_entries_list n.toNat s1 else none

/-- `deserialize(serialize(e))` recovers a descriptor structurally equal
to `e` (under `operator==`) and consumes the whole stream. -/
def entry_round_trips (e : quant_entry_t) : Bool :=
  match quant_entry_t.deserialize e.serialize with
  | some (e2, rest) => e2.equals e && rest.isEmpty
  | none => false

/-- `deserialize(serialize(s))` recovers an entry map structurally equal
to `s`'s (under the map equality of `operator==`) and consumes the whole
stream. -/
def set_round_trips (s : quant_entries_t) : Bool :=
  match quant_entries_t.deserialize s.serialize with
  | some (l, rest) => entries_eq l s.entries_ && rest.isEmpty
  | none => false

/-! ### Well-formedness and reachability -/

/-- The representation invariant every descriptor built through the API
satisfies: ranks lie in `[0, DNNL_MAX_NDIMS]`, the fixed-capacity dims
arrays have exactly `DNNL_MAX_NDIMS` slots, and the channel bitset only
uses the three defined bits. -/
def quant_entry_t.wf (e : quant_entry_t) : Prop :=
  0 ≤ e.group_ndims_ ∧ e.group_ndims_ ≤ (DNNL_MAX_NDIMS : Int)
    ∧ e.group_dims_.length = DNNL_MAX_NDIMS
    ∧ 0 ≤ e.ndims_scale ∧ e.ndims_scale ≤ (DNNL_MAX_NDIMS : Int)
    ∧ e.dims_scale.length = DNNL_MAX_NDIMS
    ∧ 0 ≤ e.ndims_wei ∧ e.ndims_wei ≤ (DNNL_MAX_NDIMS : Int)
    ∧ e.dims_wei.length = DNNL_MAX_NDIMS
    ∧ e.type_ < 8

instance (e : quant_entry_t) : Decidable e.wf := by
  unfold quant_entry_t.wf; infer_instance

/-- The descriptor values reachable through the API: the default
sentinel and anything produced by the setters. The side conditions on
ranks and array lengths are the C++ type constraints (`dims_t` is an
`int64_t[DNNL_MAX_NDIMS]` array; a rank beyond the maximum supported
rank is undefined behaviour per the spec, bounds being the caller's
responsibility). -/
inductive reachable_entry : quant_entry_t → Prop where
  | default : reachable_entry default_quant_entry
  | set (e : quant_entry_t) (mask : Int) (data_type : data_type_t)
      (group_ndims : Int) (group_dims : List Int) :
      reachable_entry e → 0 ≤ group_ndims →
      group_ndims ≤ (DNNL_MAX_NDIMS : Int) →
      group_dims.length = DNNL_MAX_NDIMS →
      reachable_entry (e.set mask data_type group_ndims group_dims)
  | set_scales (e : quant_entry_t) (dims : List Int) (ndims : Int)
      (data_type : data_type_t) (mask : Int) :
      reachable_entry e → 0 ≤ ndims → ndims ≤ (DNNL_MAX_NDIMS : Int) →
      dims.length = DNNL_MAX_NDIMS →
      reachable_entry (e.set_scales dims ndims data_type mask)
  | set_zero_points (e : quant_entry_t) (dims : List Int) (ndims : Int)
      (data_type : data_type_t) :
      reachable_entry e → 0 ≤ ndims → ndims ≤ (DNNL_MAX_NDIMS : Int) →
      dims.length = DNNL_MAX_NDIMS →
      reachable_entry (e.set_zero_points dims ndims data_type)
  | set_zero_points_grouped (e : quant_entry_t) (dims : List Int)
      (ndims : Int) (data_type : data_type_t) (mask : Int) :
      reachable_entry e → 0 ≤ ndims → ndims ≤ (DNNL_MAX_NDIMS : Int) →
      dims.length = DNNL_MAX_NDIMS →
      reachable_entry (e.set_zero_points_grouped dims ndims data_type mask)
  | set_other (e other : quant_entry_t) :
      reachable_entry e → reachable_entry other →
      reachable_entry (e.set_other other)

/-- The set values reachable through the API: a freshly constructed
policy specialization and anything produced by the set-level setters
(with either policy's `check_arg` plugged into the virtual calls). -/
inductive reachable_set : quant_entries_t → Prop where
  | scales_init : reachable_set scales_init
  | zero_points_init : reachable_set zero_points_init
  | set (check_arg : Nat → Bool) (s : quant_entries_t) (arg : Nat)
      (mask : Int) (data_type : data_type_t) (group_ndims : Int)
      (group_dims : List Int) :
      reachable_set s → 0 ≤ group_ndims →
      group_ndims ≤ (DNNL_MAX_NDIMS : Int) →
      group_dims.length = DNNL_MAX_NDIMS →
      reachable_set (quant_entries_t.set check_arg s arg mask data_type group_ndims group_dims).2
  | set_entry (s : quant_entries_t) (arg : Nat) (other : quant_entry_t) :
      reachable_set s → reachable_entry other →
      reachable_set (s.set_entry arg other).2
  | set_scales (check_arg : Nat → Bool) (s : quant_entries_t) (arg : Nat)
      (dims : List Int) (ndims : Int) (data_type : data_type_t) :
      reachable_set s → 0 ≤ ndims → ndims ≤ (DNNL_MAX_NDIMS : Int) →
      dims.length = DNNL_MAX_NDIMS →
      reachable_set (quant_entries_t.set_scales check_arg s arg dims ndims data_type).2
  | set_zero_points (s : quant_entries_t) (arg : Nat) (dims : List Int)
      (ndims : Int) (data_type : data_type_t) :
      reachable_set s → 0 ≤ ndims → ndims ≤ (DNNL_MAX_NDIMS : Int) →
      dims.length = DNNL_MAX_NDIMS →
      reachable_set (s.set_zero_points arg dims ndims data_type).2
  | zero_points_set (s : quant_entries_t) (arg : Nat) (mask : Int)
      (data_type : data_type_t) (group_ndims : Int) (group_dims : List Int) :
      reachable_set s → 0 ≤ group_ndims →
      group_ndims ≤ (DNNL_MAX_NDIMS : Int) →
      group_dims.length = DNNL_MAX_NDIMS →
      reachable_set (zero_points_set s arg mask data_type group_ndims group_dims).2

/-- The dims array a decoder reconstructs: the emitted prefix padded back
to capacity with zeros. -/
def pad_take (l : List Int) (n : Int) : List Int :=
  l.take n.toNat ++ List.replicate (DNNL_MAX_NDIMS - n.toNat) 0

/-- The descriptor a decoder reconstructs from `e`'s wire image. -/
def recon (e : quant_entry_t) : quant_entry_t :=
  { e with
    group_dims_ := pad_take e.group_dims_ e.group_ndims_
    dims_scale := pad_take e.dims_scale e.ndims_scale
    dims_wei := pad_take e.dims_wei e.ndims_wei }

/-- The set-level representation invariant: `std::map` keys sorted, all
stored entries well-formed. -/
def quant_entries_t.swf (s : quant_entries_t) : Prop :=
  sorted_keys s.entries_ = true ∧ ∀ p ∈ s.entries_, p.2.wf

/-! ### Helper lemmas -/

theorem dt_decode_code (dt : data_type_t) : dt_decode (dt_code dt) = some dt := by
  cases dt <;> rfl

theorem bool_to_int_bne_zero (b : Bool) : (bool_to_int b != 0) = b := by
  cases b <;> rfl

theorem read_ints_append (l r : List Int) :
    read_ints l.length (l ++ r) = some (l, r) := by
  induction l with
  | nil => rfl
  | cons x xs ih => simp [read_ints, read_int, ih]

theorem read_ints_append_len (n : Nat) (l r : List Int) (h : l.length = n) :
    read_ints n (l ++ r) = some (l, r) :=
  h ▸ read_ints_append l r

theorem take_pad_take (l z : List Int) (n : Nat) (h : n ≤ l.length) :
    (l.take n ++ z).take n = l.take n := by
  rw [List.take_append_of_le_length (by simpa using h), List.take_take,
    Nat.min_self]

theorem array_copy_length (dst src : List Int) (n : Int)
    (hd : dst.length = DNNL_MAX_NDIMS) (hs : src.length = DNNL_MAX_NDIMS)
    (hn : n ≤ (DNNL_MAX_NDIMS : Int)) :
    (array_copy dst src n).length = DNNL_MAX_NDIMS := by
  have : n.toNat ≤ DNNL_MAX_NDIMS := by
    simp only [DNNL_MAX_NDIMS] at hn ⊢; omega
  simp [array_copy, hd, hs, DNNL_MAX_NDIMS] at *
  omega

theorem wf_default : default_quant_entry.wf := by decide

theorem wf_set (e : quant_entry_t) (mask : Int) (data_type : data_type_t)
    (group_ndims : Int) (group_dims : List Int) (he : e.wf)
    (h0 : 0 ≤ group_ndims) (h1 : group_ndims ≤ (DNNL_MAX_NDIMS : Int))
    (hl : group_dims.length = DNNL_MAX_NDIMS) :
    (e.set mask data_type group_ndims group_dims).wf := by
  obtain ⟨e1, e2, e3, e4, e5, e6, e7, e8, e9, et⟩ := he
  refine ⟨h0, h1, ?_, e4, e5, e6, e7, e8, e9, ?_⟩
  · simp only [quant_entry_t.set]
    split
    · exact array_copy_length _ _ _ e3 hl h1
    · exact e3
  · simpa [quant_entry_t.set, entry_type_DNNL] using
      Nat.bitwise_lt_two_pow (n := 3) et (by norm_num)

theorem wf_set_scales (e : quant_entry_t) (dims : List Int) (ndims : Int)
    (data_type : data_type_t) (mask : Int) (he : e.wf)
    (h0 : 0 ≤ ndims) (h1 : ndims ≤ (DNNL_MAX_NDIMS : Int))
    (hl : dims.length = DNNL_MAX_NDIMS) :
    (e.set_scales dims ndims data_type mask).wf := by
  obtain ⟨e1, e2, e3, e4, e5, e6, e7, e8, e9, et⟩ := he
  refine ⟨e1, e2, e3, h0, h1, ?_, e7, e8, e9, ?_⟩
  · simp only [quant_entry_t.set_scales]
    split
    · exact array_copy_length _ _ _ e6 hl h1
    · exact e6
  · simpa [quant_entry_t.set_scales, entry_type_OV_SCALES] using
      Nat.bitwise_lt_two_pow (n := 3) et (by norm_num)

theorem wf_set_zero_points (e : quant_entry_t) (dims : List Int)
    (ndims : Int) (data_type : data_type_t) (he : e.wf)
    (h0 : 0 ≤ ndims) (h1 : ndims ≤ (DNNL_MAX_NDIMS : Int))
    (hl : dims.length = DNNL_MAX_NDIMS) :
    (e.set_zero_points dims ndims data_type).wf := by
  obtain ⟨e1, e2, e3, e4, e5, e6, e7, e8, e9, et⟩ := he
  refine ⟨e1, e2, e3, e4, e5, e6, h0, h1, ?_, ?_⟩
  · simp only [quant_entry_t.set_zero_points]
    split
    · exact array_copy_length _ _ _ e9 hl h1
    · exact e9
  · simpa [quant_entry_t.set_zero_points, entry_type_OV_ZERO_POINTS] using
      Nat.bitwise_lt_two_pow (n := 3) et (by norm_num)

theorem wf_set_zero_points_grouped (e : quant_entry_t) (dims : List Int)
    (ndims : Int) (data_type : data_type_t) (mask : Int) (he : e.wf)
    (h0 : 0 ≤ ndims) (h1 : ndims ≤ (DNNL_MAX_NDIMS : Int))
    (hl : dims.length = DNNL_MAX_NDIMS) :
    (e.set_zero_points_grouped dims ndims data_type mask).wf := by
  obtain ⟨e1, e2, e3, e4, e5, e6, e7, e8, e9, et⟩ := he
  refine ⟨?_, ?_, ?_, e4, e5, e6, h0, h1, ?_, ?_⟩
  · simp only [quant_entry_t.set_zero_points_grouped]
    split <;> omega
  · simp only [quant_entry_t.set_zero_points_grouped]
    split <;> omega
  · simp only [quant_entry_t.set_zero_points_grouped]
    split
    · exact array_copy_length _ _ _ e3 hl h1
    · exact e3
  · simp only [quant_entry_t.set_zero_points_grouped]
    split
    · exact array_copy_length _ _ _ e9 hl h1
    · exact e9
  · simpa [quant_entry_t.set_zero_points_grouped, entry_type_DNNL] using
      Nat.bitwise_lt_two_pow (n := 3) et (by norm_num)

theorem wf_set_other (e other : quant_entry_t) (he : e.wf)
    (ho : other.wf) : (e.set_other other).wf := by
  obtain ⟨e1, e2, e3, e4, e5, e6, e7, e8, e9, et⟩ := he
  obtain ⟨o1, o2, o3, o4, o5, o6, o7, o8, o9, ot⟩ := ho
  refine ⟨o1, o2, ?_, o4, o5, e6, o7, o8, e9, ot⟩
  simp only [quant_entry_t.set_other]
  split
  · exact array_copy_length _ _ _ e3 o3 o2
  · exact e3

theorem reachable_entry_wf (e : quant_entry_t) (h : reachable_entry e) :
    e.wf := by
  induction h with
  | default => exact wf_default
  | set e mask dt gn gd _ h0 h1 hl ih => exact wf_set e mask dt gn gd ih h0 h1 hl
  | set_scales e dims n dt mask _ h0 h1 hl ih =>
    exact wf_set_scales e dims n dt mask ih h0 h1 hl
  | set_zero_points e dims n dt _ h0 h1 hl ih =>
    exact wf_set_zero_points e dims n dt ih h0 h1 hl
  | set_zero_points_grouped e dims n dt mask _ h0 h1 hl ih =>
    exact wf_set_zero_points_grouped e dims n dt mask ih h0 h1 hl
  | set_other e other _ _ ih iho => exact wf_set_other e other ih iho

theorem read_channel_serialize (flag : Bool) (mask : Int)
    (dt : data_type_t) (n : Int) (dims rest : List Int)
    (h0 : 0 ≤ n) (h1 : n ≤ (DNNL_MAX_NDIMS : Int))
    (hl : dims.length = DNNL_MAX_NDIMS) :
    read_channel (serialize_channel flag mask dt n dims ++ rest)
      = some ((flag, mask, dt, n, pad_take dims n), rest) := by
  have hn : (dims.take n.toNat).length = n.toNat := by
    simp only [List.length_take, hl]
    simp only [DNNL_MAX_NDIMS] at h1 ⊢
    omega
  simp only [read_channel, serialize_channel, List.cons_append, List.nil_append,
    read_int, Option.bind_eq_bind, Option.some_bind, dt_decode_code, pad_take]
  rw [if_pos ⟨h0, h1⟩]
  rw [read_ints_append_len _ _ _ hn]
  simp [bool_to_int_bne_zero]

theorem deserialize_serialize_entry (e : quant_entry_t) (rest : List Int)
    (h : e.wf) :
    quant_entry_t.deserialize (e.serialize ++ rest) = some (recon e, rest) := by
  obtain ⟨h1, h2, h3, h4, h5, h6, h7, h8, h9, ht⟩ := h
  have ht0 : (0 : Int) ≤ (e.type_ : Int) := by positivity
  have ht8 : ((e.type_ : Int)) < 8 := by exact_mod_cast ht
  simp only [quant_entry_t.deserialize, quant_entry_t.serialize,
    List.cons_append, List.nil_append, List.append_assoc, read_int,
    Option.bind_eq_bind, Option.some_bind]
  rw [if_pos ⟨ht0, ht8⟩]
  rw [read_channel_serialize _ _ _ _ _ _ h1 h2 h3]
  simp only [Option.some_bind]
  rw [read_channel_serialize _ _ _ _ _ _ h4 h5 h6]
  simp only [Option.some_bind]
  rw [read_channel_serialize _ _ _ _ _ _ h7 h8 h9]
  simp [recon]

theorem array_cmp_pad_take (l : List Int) (n : Int)
    (h1 : n ≤ (DNNL_MAX_NDIMS : Int)) (hl : l.length = DNNL_MAX_NDIMS) :
    array_cmp (pad_take l n) l n = true := by
  have hn : n.toNat ≤ l.length := by
    simp only [hl, DNNL_MAX_NDIMS] at *
    omega
  simp [array_cmp, pad_take, take_pad_take _ _ _ hn]

theorem recon_equals (e : quant_entry_t) (h : e.wf) :
    (recon e).equals e = true := by
  obtain ⟨h1, h2, h3, h4, h5, h6, h7, h8, h9, ht⟩ := h
  simp only [quant_entry_t.equals, recon, Bool.and_eq_true, beq_self_eq_true,
    Bool.or_eq_true, Bool.not_eq_eq_eq_not, Bool.not_true, decide_eq_false_iff_not,
    true_and]
  repeat' apply And.intro
  all_goals
    first
      | exact Or.inr (array_cmp_pad_take _ _ h2 h3)
      | exact Or.inr (array_cmp_pad_take _ _ h5 h6)
      | exact Or.inr (array_cmp_pad_take _ _ h8 h9)

theorem entry_round_trips_of_wf (e : quant_entry_t) (h : e.wf) :
    entry_round_trips e = true := by
  have hd := deserialize_serialize_entry e [] h
  rw [List.append_nil] at hd
  simp [entry_round_trips, hd, recon_equals e h]

theorem deserialize_serialize_entries_list (l : List (Nat × quant_entry_t))
    (rest : List Int) (h : ∀ p ∈ l, p.2.wf) :
    ∃ l2, deserialize_entries_list l.length (serialize_entries_list l ++ rest)
        = some (l2, rest)
      ∧ entries_eq l2 l = true := by
  induction l with
  | nil => exact ⟨[], rfl, rfl⟩
  | cons p tl ih =>
    obtain ⟨k, e⟩ := p
    have he : e.wf := h (k, e) (by simp)
    obtain ⟨l2, hdes, heq⟩ := ih (fun q hq => h q (by simp [hq]))
    refine ⟨(k, recon e) :: l2, ?_, ?_⟩
    · simp only [serialize_entries_list, List.length_cons,
        deserialize_entries_list, List.cons_append, List.nil_append,
        List.append_assoc, read_int, Option.bind_eq_bind, Option.some_bind]
      rw [if_pos (by positivity)]
      rw [deserialize_serialize_entry e _ he]
      simp [hdes]
    · simp [entries_eq, recon_equals e he, heq]

theorem set_round_trips_of_wf (s : quant_entries_t)
    (h : ∀ p ∈ s.entries_, p.2.wf) : set_round_trips s = true := by
  obtain ⟨l2, hdes, heq⟩ :=
    deserialize_serialize_entries_list s.entries_ [] h
  rw [List.append_nil] at hdes
  simp only [set_round_trips, quant_entries_t.deserialize,
    quant_entries_t.serialize, List.cons_append, List.nil_append, read_int,
    Option.bind_eq_bind, Option.some_bind]
  rw [if_pos (by positivity)]
  simp [hdes, heq]

/-! ### Map lemmas -/

theorem sorted_keys_cons_iff (k : Nat) (v : quant_entry_t)
    (rest : List (Nat × quant_entry_t)) :
    sorted_keys ((k, v) :: rest) = true
      ↔ (sorted_keys rest = true ∧ ∀ p ∈ rest, k < p.1) := by
  induction rest generalizing k v with
  | nil => simp [sorted_keys]
  | cons q tl ih =>
    obtain ⟨k2, v2⟩ := q
    constructor
    · intro h
      simp only [sorted_keys, Bool.and_eq_true] at h
      obtain ⟨hk, h2⟩ := h
      obtain ⟨h3, h4⟩ := (ih k2 v2).mp h2
      refine ⟨h2, ?_⟩
      intro p hp
      rcases List.mem_cons.mp hp with h5 | h5
      · subst h5; simpa using hk
      · exact Nat.lt_trans (by simpa using hk) (h4 p h5)
    · intro ⟨h1, h2⟩
      simp only [sorted_keys, Bool.and_eq_true]
      exact ⟨by simpa using h2 (k2, v2) (by simp), h1⟩

theorem map_find_none_of_forall_lt (m : List (Nat × quant_entry_t)) (a : Nat)
    (h : ∀ p ∈ m, a < p.1) : map_find m a = none := by
  induction m with
  | nil => rfl
  | cons p rest ih =>
    obtain ⟨k, v⟩ := p
    have hk : a < k := h (k, v) (by simp)
    simp only [map_find, if_neg (Nat.ne_of_lt hk)]
    exact ih (fun q hq => h q (by simp [hq]))

theorem map_find_update_self (m : List (Nat × quant_entry_t)) (arg : Nat)
    (f : quant_entry_t → quant_entry_t) (hs : sorted_keys m = true) :
    map_find (map_update m arg f) arg
      = some (f ((map_find m arg).getD default_quant_entry)) := by
  induction m with
  | nil => simp [map_update, map_find]
  | cons p rest ih =>
    obtain ⟨k, v⟩ := p
    obtain ⟨hs1, hs2⟩ := (sorted_keys_cons_iff k v rest).mp hs
    simp only [map_update]
    by_cases h1 : arg < k
    · have hn : map_find rest arg = none :=
        map_find_none_of_forall_lt rest arg
          (fun q hq => Nat.lt_trans h1 (hs2 q hq))
      simp [map_find, if_neg (Nat.ne_of_lt h1), h1, hn]
    · by_cases h2 : arg = k
      · subst h2
        simp [map_find, h1]
      · simp [map_find, h1, h2, ih hs1]

theorem map_find_update_other (m : List (Nat × quant_entry_t)) (arg a : Nat)
    (f : quant_entry_t → quant_entry_t) (h : a ≠ arg) :
    map_find (map_update m arg f) a = map_find m a := by
  induction m with
  | nil => simp [map_update, map_find, h]
  | cons p rest ih =>
    obtain ⟨k, v⟩ := p
    simp only [map_update]
    by_cases h1 : arg < k
    · simp [map_find, h, h1]
    · by_cases h2 : arg = k
      · subst h2
        simp [map_find, h, h1]
      · simp [map_find, h1, h2, ih]

theorem map_update_keys_bound (m : List (Nat × quant_entry_t)) (arg k : Nat)
    (f : quant_entry_t → quant_entry_t) (hk : k < arg)
    (hm : ∀ p ∈ m, k < p.1) :
    ∀ p ∈ map_update m arg f, k < p.1 := by
  induction m with
  | nil =>
    intro p hp
    simp only [map_update, List.mem_singleton] at hp
    subst hp
    exact hk
  | cons q rest ih =>
    obtain ⟨k2, v2⟩ := q
    intro p hp
    simp only [map_update] at hp
    by_cases h1 : arg < k2
    · simp only [if_pos h1] at hp
      rcases List.mem_cons.mp hp with h2 | h2
      · subst h2; exact hk
      · exact hm p h2
    · by_cases h2 : arg = k2
      · simp only [if_neg h1, if_pos h2] at hp
        rcases List.mem_cons.mp hp with h3 | h3
        · subst h3; exact hk
        · exact hm p (by simp [h3])
      · simp only [if_neg h1, if_neg h2] at hp
        rcases List.mem_cons.mp hp with h3 | h3
        · subst h3; exact hm (k2, v2) (by simp)
        · exact ih (fun q hq => hm q (by simp [hq])) p h3

theorem sorted_map_update (m : List (Nat × quant_entry_t)) (arg : Nat)
    (f : quant_entry_t → quant_entry_t) (hs : sorted_keys m = true) :
    sorted_keys (map_update m arg f) = true := by
  induction m with
  | nil => rfl
  | cons p rest ih =>
    obtain ⟨k, v⟩ := p
    obtain ⟨hs1, hs2⟩ := (sorted_keys_cons_iff k v rest).mp hs
    simp only [map_update]
    by_cases h1 : arg < k
    · rw [if_pos h1]
      refine (sorted_keys_cons_iff _ _ _).mpr ⟨hs, ?_⟩
      intro p hp
      rcases List.mem_cons.mp hp with h2 | h2
      · subst h2; exact h1
      · exact Nat.lt_trans h1 (hs2 p h2)
    · by_cases h2 : arg = k
      · subst h2
        rw [if_neg h1, if_pos rfl]
        exact (sorted_keys_cons_iff _ _ _).mpr ⟨hs1, hs2⟩
      · rw [if_neg h1, if_neg h2]
        have hk : k < arg := by omega
        exact (sorted_keys_cons_iff _ _ _).mpr
          ⟨ih hs1, map_update_keys_bound rest arg k f hk hs2⟩

theorem map_update_all (m : List (Nat × quant_entry_t)) (arg : Nat)
    (f : quant_entry_t → quant_entry_t) (P : quant_entry_t → Prop)
    (hm : ∀ p ∈ m, P p.2) (hf : ∀ e, P e → P (f e))
    (hd : P default_quant_entry) :
    ∀ p ∈ map_update m arg f, P p.2 := by
  induction m with
  | nil =>
    intro p hp
    simp only [map_update, List.mem_singleton] at hp
    subst hp
    exact hf _ hd
  | cons q rest ih =>
    obtain ⟨k, v⟩ := q
    intro p hp
    simp only [map_update] at hp
    by_cases h1 : arg < k
    · simp only [if_pos h1] at hp
      rcases List.mem_cons.mp hp with h2 | h2
      · subst h2; exact hf _ hd
      · exact hm p h2
    · by_cases h2 : arg = k
      · simp only [if_neg h1, if_pos h2] at hp
        rcases List.mem_cons.mp hp with h3 | h3
        · subst h3; exact hf _ (hm (k, v) (by simp))
        · exact hm p (by simp [h3])
      · simp only [if_neg h1, if_neg h2] at hp
        rcases List.mem_cons.mp hp with h3 | h3
        · subst h3; exact hm (k, v) (by simp)
        · exact ih (fun q hq => hm q (by simp [hq])) p h3

theorem map_update_length_absent (m : List (Nat × quant_entry_t)) (arg : Nat)
    (f : quant_entry_t → quant_entry_t) (h : map_find m arg = none) :
    (map_update m arg f).length = m.length + 1 := by
  induction m with
  | nil => rfl
  | cons p rest ih =>
    obtain ⟨k, v⟩ := p
    simp only [map_find] at h
    by_cases h2 : arg = k
    · simp [h2] at h
    · rw [if_neg h2] at h
      simp only [map_update]
      by_cases h1 : arg < k
      · simp [h1]
      · simp [h1, h2, ih h]

theorem entries_eq_length (a b : List (Nat × quant_entry_t))
    (h : entries_eq a b = true) : a.length = b.length := by
  induction a generalizing b with
  | nil => cases b with
    | nil => rfl
    | cons q tl => simp [entries_eq] at h
  | cons p tl ih =>
    cases b with
    | nil => simp [entries_eq] at h
    | cons q tl2 =>
      obtain ⟨k, v⟩ := p
      obtain ⟨k2, v2⟩ := q
      simp only [entries_eq, Bool.and_eq_true] at h
      simp [ih tl2 h.2]

theorem reachable_set_swf (s : quant_entries_t) (h : reachable_set s) :
    s.swf := by
  induction h with
  | scales_init => exact ⟨rfl, by simp [scales_init]⟩
  | zero_points_init => exact ⟨rfl, by simp [zero_points_init]⟩
  | set ca s arg mask dt gn gd hr h0 h1 hl ih =>
    obtain ⟨ihs, ihw⟩ := ih
    simp only [quant_entries_t.set]
    split
    · exact ⟨ihs, ihw⟩
    · exact ⟨sorted_map_update _ _ _ ihs,
        map_update_all _ _ _ _ ihw
          (fun e he => wf_set e mask dt gn gd he h0 h1 hl) wf_default⟩
  | set_entry s arg other hr hro ih =>
    obtain ⟨ihs, ihw⟩ := ih
    exact ⟨sorted_map_update _ _ _ ihs,
      map_update_all _ _ _ _ ihw
        (fun e he => wf_set_other e other he (reachable_entry_wf other hro))
        wf_default⟩
  | set_scales ca s arg dims n dt hr h0 h1 hl ih =>
    obtain ⟨ihs, ihw⟩ := ih
    simp only [quant_entries_t.set_scales]
    split
    · exact ⟨ihs, ihw⟩
    · exact ⟨sorted_map_update _ _ _ ihs,
        map_update_all _ _ _ _ ihw
          (fun e he => wf_set_scales e dims n dt 1 he h0 h1 hl) wf_default⟩
  | set_zero_points s arg dims n dt hr h0 h1 hl ih =>
    obtain ⟨ihs, ihw⟩ := ih
    simp only [quant_entries_t.set_zero_points]
    split
    · exact ⟨ihs, ihw⟩
    · exact ⟨sorted_map_update _ _ _ ihs,
        map_update_all _ _ _ _ ihw
          (fun e he => wf_set_zero_points e dims n dt he h0 h1 hl) wf_default⟩
  | zero_points_set s arg mask dt gn gd hr h0 h1 hl ih =>
    obtain ⟨ihs, ihw⟩ := ih
    simp only [zero_points_set]
    split
    · exact ⟨ihs, ihw⟩
    · split
      · exact ⟨sorted_map_update _ _ _ ihs,
          map_update_all _ _ _ _ ihw
            (fun e he => wf_set_zero_points_grouped e gd gn dt mask he h0 h1 hl)
            wf_default⟩
      · exact ⟨sorted_map_update _ _ _ ihs,
          map_update_all _ _ _ _ ihw
            (fun e he => wf_set e mask dt gn gd he h0 h1 hl) wf_default⟩

/-- Within the API-reachable descriptors, unset flags pin every scalar
channel field at its default (the dims arrays may hold stale contents,
but those are only observable when the matching rank is positive). -/
theorem reachable_unset_default (e : quant_entry_t) (h : reachable_entry e)
    (h1 : e.is_set_ = false) (h2 : e.is_set_scale = false)
    (h3 : e.is_set_wei = false) :
    e.type_ = entry_type_NONE ∧ e.mask_ = INT_MIN ∧ e.data_type_ = .undef
      ∧ e.group_ndims_ = 0 ∧ e.mask_scale = INT_MIN
      ∧ e.data_type_scale = .undef ∧ e.ndims_scale = 0
      ∧ e.mask_wei = INT_MIN ∧ e.data_type_wei = .s32
      ∧ e.ndims_wei = 0 := by
  induction h with
  | default => exact ⟨rfl, rfl, rfl, rfl, rfl, rfl, rfl, rfl, rfl, rfl⟩
  | set e mask dt gn gd hr ha hb hl ih =>
    simp [quant_entry_t.set] at h1
  | set_scales e dims n dt mask hr ha hb hl ih =>
    simp [quant_entry_t.set_scales] at h2
  | set_zero_points e dims n dt hr ha hb hl ih =>
    simp [quant_entry_t.set_zero_points] at h3
  | set_zero_points_grouped e dims n dt mask hr ha hb hl ih =>
    simp [quant_entry_t.set_zero_points_grouped] at h3
  | set_other e other hr hro ih iho =>
    exact iho h1 h2 h3

theorem map_update_length_present (m : List (Nat × quant_entry_t))
    (arg : Nat) (f : quant_entry_t → quant_entry_t)
    (hs : sorted_keys m = true) (h : (map_find m arg).isSome = true) :
    (map_update m arg f).length = m.length := by
  induction m with
  | nil => simp [map_find] at h
  | cons p rest ih =>
    obtain ⟨k, v⟩ := p
    obtain ⟨hs1, hs2⟩ := (sorted_keys_cons_iff k v rest).mp hs
    simp only [map_update]
    by_cases h1 : arg < k
    · exfalso
      have hn : map_find rest arg = none :=
        map_find_none_of_forall_lt rest arg
          (fun q hq => Nat.lt_trans h1 (hs2 q hq))
      simp [map_find, if_neg (Nat.ne_of_lt h1), hn] at h
    · by_cases h2 : arg = k
      · simp [h1, h2]
      · simp only [map_find, if_neg h2] at h
        simp [h1, h2, ih hs1 h]

/-! ### Claim theorems -/

/-- C1 (code_bug evidence): the spec says `assign(other)` overwrites all
channel state, but `quant_entry_t::set(const quant_entry_t &)` invokes
`utils::array_cmp` (a pure comparison) instead of `utils::array_copy` on
`dims_scale` and `dims_wei`, so a positive-rank scale or zero-point dims
sequence is not copied: assigning an entry `b` with `dims_scale = [4]`
(rank 1) or `dims_wei = [5]` (rank 1) to a default entry leaves the
target's dims arrays zeroed, and the result is not structurally equal to
`b`. -/
theorem C1_assign_drops_dims :
    ((default_quant_entry.set_other
          (default_quant_entry.set_scales (4 :: List.replicate 11 0) 1 .f32 1)).equals
        (default_quant_entry.set_scales (4 :: List.replicate 11 0) 1 .f32 1) = false
      ∧ (default_quant_entry.set_other
          (default_quant_entry.set_scales (4 :: List.replicate 11 0) 1 .f32 1)).dims_scale
        ≠ (default_quant_entry.set_scales (4 :: List.replicate 11 0) 1 .f32 1).dims_scale)
    ∧ ((default_quant_entry.set_other
          (default_quant_entry.set_zero_points (5 :: List.replicate 11 0) 1 .s8)).equals
        (default_quant_entry.set_zero_points (5 :: List.replicate 11 0) 1 .s8) = false
      ∧ (default_quant_entry.set_other
          (default_quant_entry.set_zero_points (5 :: List.replicate 11 0) 1 .s8)).dims_wei
        ≠ (default_quant_entry.set_zero_points (5 :: List.replicate 11 0) 1 .s8).dims_wei) := by
  decide

/-- C2 (counterexample): `quant_entries_t::set_zero_points` with
`arg = DNNL_ARG_DST` (the primary output) is a failing set-operation, yet
it returns `status::unimplemented`, not the invalid-argument error the
claim asserts. -/
theorem C2_counterexample :
    (quant_entries_t.set_zero_points zero_points_init DNNL_ARG_DST
        zero_dims 1 .s32).1 = status_t.unimplemented
      ∧ status_t.unimplemented ≠ status_t.invalid_arguments := by
  decide

/-- C2 (amended): set-operations gated by the policy's `check_arg`
(`set`, `set_scales`, the `zero_points_t::set` override) fail with
invalid-argument, but `set_zero_points` with any argument other than
weights fails with the distinct `unimplemented` error. -/
theorem C2_failing_set_statuses (s : quant_entries_t) (arg : Nat)
    (mask : Int) (data_type : data_type_t) (group_ndims : Int)
    (group_dims dims : List Int) (ndims : Int) :
    (scales_check_arg arg = false →
      scales_set s arg mask data_type group_ndims group_dims
          = (.invalid_arguments, s)
        ∧ scales_set_scales s arg dims ndims data_type
          = (.invalid_arguments, s))
    ∧ (zero_points_check_arg arg = false →
      zero_points_set s arg mask data_type group_ndims group_dims
        = (.invalid_arguments, s))
    ∧ (arg ≠ DNNL_ARG_WEIGHTS →
      quant_entries_t.set_zero_points s arg dims ndims data_type
        = (.unimplemented, s)) := by
  refine ⟨fun h => ?_, fun h => ?_, fun h => ?_⟩
  · exact ⟨by simp [scales_set, quant_entries_t.set, h],
      by simp [scales_set_scales, quant_entries_t.set_scales, h]⟩
  · simp [zero_points_set, h]
  · simp [quant_entries_t.set_zero_points, h]

/-- C2 (witness): the gate failure statuses at concrete inputs — a scale
set rejects `arg = 999` with invalid-argument, and the zero-point set's
`set_zero_points` rejects `arg = DNNL_ARG_DST` with `unimplemented`. -/
theorem C2_failing_set_statuses_witness :
    (scales_check_arg 999 = false
      ∧ scales_set scales_init 999 1 .f32 0 zero_dims
        = (.invalid_arguments, scales_init))
    ∧ ((999 : Nat) ≠ DNNL_ARG_WEIGHTS
      ∧ quant_entries_t.set_zero_points zero_points_init DNNL_ARG_DST
          zero_dims 1 .s32 = (.unimplemented, zero_points_init)) :=
  ⟨⟨by decide,
    ((C2_failing_set_statuses scales_init 999 1 .f32 0 zero_dims zero_dims 1).1
      (by decide)).1⟩,
   ⟨by decide,
    (C2_failing_set_statuses zero_points_init DNNL_ARG_DST 1 .s32 0 zero_dims
        zero_dims 1).2.2 (by decide)⟩⟩

/-- C3 (confirmed): the channel-unnamed accessors resolve
weight-zero-point channel → native channel → scale channel → default,
and in the spec's concrete scenario a scale-only descriptor with mask 2
reports `mask() = 2`, rank 1 and dims `[4]`, while additionally
configuring the native channel with mask 1 makes `mask() = 1` with the
scale-channel state unchanged. -/
theorem C3_accessor_precedence (e : quant_entry_t) :
    (e.is_set_wei = true →
      e.get_mask = e.mask_wei ∧ e.get_data_type = e.data_type_wei
        ∧ e.get_dims = e.dims_wei ∧ e.get_ndims = e.ndims_wei)
    ∧ (e.is_set_wei = false → e.is_set_ = true →
      e.get_mask = e.mask_ ∧ e.get_data_type = e.data_type_
        ∧ e.get_dims = e.group_dims_ ∧ e.get_ndims = e.group_ndims_)
    ∧ (e.is_set_wei = false → e.is_set_ = false → e.is_set_scale = true →
      e.get_mask = e.mask_scale ∧ e.get_data_type = e.data_type_scale
        ∧ e.get_dims = e.dims_scale ∧ e.get_ndims = e.ndims_scale)
    ∧ (e.is_set_wei = false → e.is_set_ = false → e.is_set_scale = false →
      e.get_mask = INT_MIN ∧ e.get_data_type = .undef
        ∧ e.get_dims = zero_dims ∧ e.get_ndims = 0)
    ∧ ((default_quant_entry.set_scales (4 :: List.replicate 11 0) 1 .f32 2).get_mask = 2
      ∧ (default_quant_entry.set_scales (4 :: List.replicate 11 0) 1 .f32 2).get_ndims = 1
      ∧ (default_quant_entry.set_scales (4 :: List.replicate 11 0) 1 .f32 2).get_dims
          = 4 :: List.replicate 11 0
      ∧ ((default_quant_entry.set_scales (4 :: List.replicate 11 0) 1 .f32 2).set
            1 .f32 0 zero_dims).get_mask = 1
      ∧ ((default_quant_entry.set_scales (4 :: List.replicate 11 0) 1 .f32 2).set
            1 .f32 0 zero_dims).mask_scale = 2
      ∧ ((default_quant_entry.set_scales (4 :: List.replicate 11 0) 1 .f32 2).set
            1 .f32 0 zero_dims).ndims_scale = 1
      ∧ ((default_quant_entry.set_scales (4 :: List.replicate 11 0) 1 .f32 2).set
            1 .f32 0 zero_dims).dims_scale = 4 :: List.replicate 11 0
      ∧ ((default_quant_entry.set_scales (4 :: List.replicate 11 0) 1 .f32 2).set
            1 .f32 0 zero_dims).is_set_scale = true) := by
  refine ⟨fun h1 => ?_, fun h1 h2 => ?_, fun h1 h2 h3 => ?_, fun h1 h2 h3 => ?_, ?_⟩
  · simp [quant_entry_t.get_mask, quant_entry_t.get_data_type,
      quant_entry_t.get_dims, quant_entry_t.get_ndims, h1]
  · simp [quant_entry_t.get_mask, quant_entry_t.get_data_type,
      quant_entry_t.get_dims, quant_entry_t.get_ndims, h1, h2]
  · simp [quant_entry_t.get_mask, quant_entry_t.get_data_type,
      quant_entry_t.get_dims, quant_entry_t.get_ndims, h1, h2, h3]
  · simp [quant_entry_t.get_mask, quant_entry_t.get_data_type,
      quant_entry_t.get_dims, quant_entry_t.get_ndims, h1, h2, h3]
  · decide

/-- C3 (witness): the precedence equations instantiated on a descriptor
with the weight-zero-point channel configured. -/
theorem C3_accessor_precedence_witness :
    (default_quant_entry.set_zero_points (6 :: List.replicate 11 0) 1 .s8).get_mask
      = (default_quant_entry.set_zero_points (6 :: List.replicate 11 0) 1 .s8).mask_wei :=
  ((C3_accessor_precedence
      (default_quant_entry.set_zero_points (6 :: List.replicate 11 0) 1 .s8)).1 rfl).1

theorem zero_points_set_weights_get (s : quant_entries_t) (mask : Int)
    (data_type : data_type_t) (group_ndims : Int) (group_dims : List Int)
    (hs : sorted_keys s.entries_ = true) :
    (zero_points_set s DNNL_ARG_WEIGHTS mask data_type group_ndims group_dims).2.get
        DNNL_ARG_WEIGHTS
      = (s.get DNNL_ARG_WEIGHTS).set_zero_points_grouped group_dims group_ndims
          data_type mask := by
  show (map_find (map_update s.entries_ DNNL_ARG_WEIGHTS fun e =>
      e.set_zero_points_grouped group_dims group_ndims data_type mask)
      DNNL_ARG_WEIGHTS).getD default_quant_entry = _
  rw [map_find_update_self _ _ _ hs]
  rfl

theorem zero_points_set_nonweights_get (s : quant_entries_t) (arg : Nat)
    (mask : Int) (data_type : data_type_t) (group_ndims : Int)
    (group_dims : List Int) (hs : sorted_keys s.entries_ = true)
    (hc : zero_points_check_arg arg = true) (hw : arg ≠ DNNL_ARG_WEIGHTS) :
    (zero_points_set s arg mask data_type group_ndims group_dims).2.get arg
      = (s.get arg).set mask data_type group_ndims group_dims := by
  simp only [zero_points_set, hc, Bool.not_true, Bool.false_eq_true, if_false,
    if_neg hw, quant_entries_t.get]
  rw [map_find_update_self _ _ _ hs]
  rfl

/-- C4 (confirmed): on the zero-point policy, the grouped setter for the
weights argument routes through the cross-writing
`set_zero_points(dims, ndims, data_type, mask)`: with dims `[2, 2]`
(rank 2, int8, mask 3) the zero-point channel holds those dims AND the
native channel's group shape holds the same dims, so
`get_group(weights, 0) = get_group(weights, 1) = 2` through the
native-channel group accessor; every other accepted argument id goes
through the plain native `quant_entry_t::set`, leaving the zero-point
channel untouched. -/
theorem C4_grouped_zero_point_cross_write (s : quant_entries_t) (arg : Nat)
    (mask : Int) (data_type : data_type_t) (group_ndims : Int)
    (group_dims : List Int) (hs : s.swf) :
    ((zero_points_set s DNNL_ARG_WEIGHTS 3 .s8 2
          (2 :: 2 :: List.replicate 10 0)).1 = .success
      ∧ ((zero_points_set s DNNL_ARG_WEIGHTS 3 .s8 2
            (2 :: 2 :: List.replicate 10 0)).2.get DNNL_ARG_WEIGHTS).is_set_wei = true
      ∧ ((zero_points_set s DNNL_ARG_WEIGHTS 3 .s8 2
            (2 :: 2 :: List.replicate 10 0)).2.get DNNL_ARG_WEIGHTS).ndims_wei = 2
      ∧ ((zero_points_set s DNNL_ARG_WEIGHTS 3 .s8 2
            (2 :: 2 :: List.replicate 10 0)).2.get DNNL_ARG_WEIGHTS).mask_wei = 3
      ∧ ((zero_points_set s DNNL_ARG_WEIGHTS 3 .s8 2
            (2 :: 2 :: List.replicate 10 0)).2.get DNNL_ARG_WEIGHTS).dims_wei.take 2
          = [2, 2]
      ∧ ((zero_points_set s DNNL_ARG_WEIGHTS 3 .s8 2
            (2 :: 2 :: List.replicate 10 0)).2.get DNNL_ARG_WEIGHTS).group_ndims_ = 2
      ∧ ((zero_points_set s DNNL_ARG_WEIGHTS 3 .s8 2
            (2 :: 2 :: List.replicate 10 0)).2.get DNNL_ARG_WEIGHTS).group_dims_.take 2
          = [2, 2]
      ∧ (zero_points_set s DNNL_ARG_WEIGHTS 3 .s8 2
            (2 :: 2 :: List.replicate 10 0)).2.get_group DNNL_ARG_WEIGHTS 0 = 2
      ∧ (zero_points_set s DNNL_ARG_WEIGHTS 3 .s8 2
            (2 :: 2 :: List.replicate 10 0)).2.get_group DNNL_ARG_WEIGHTS 1 = 2)
    ∧ (zero_points_check_arg arg = true → arg ≠ DNNL_ARG_WEIGHTS →
      (zero_points_set s arg mask data_type group_ndims group_dims).2.get arg
        = (s.get arg).set mask data_type group_ndims group_dims) := by
  constructor
  · have hget := zero_points_set_weights_get s 3 .s8 2
      (2 :: 2 :: List.replicate 10 0) hs.1
    refine ⟨rfl, ?_, ?_, ?_, ?_, ?_, ?_, ?_, ?_⟩ <;>
      (try simp only [quant_entries_t.get_group]) <;> rw [hget] <;>
        simp [quant_entry_t.set_zero_points_grouped, quant_entry_t.get_group,
          array_copy, default_quant_entry, List.getD]
  · intro hc hw
    exact zero_points_set_nonweights_get s arg mask data_type group_ndims
      group_dims hs.1 hc hw

/-- C4 (witness): the cross-write and plain-path equations instantiated
on a freshly constructed zero-point set. -/
theorem C4_grouped_zero_point_cross_write_witness :
    (zero_points_set zero_points_init DNNL_ARG_WEIGHTS 3 .s8 2
        (2 :: 2 :: List.replicate 10 0)).2.get_group DNNL_ARG_WEIGHTS 0 = 2
    ∧ (zero_points_set zero_points_init DNNL_ARG_SRC 1 .s32 0
        zero_dims).2.get DNNL_ARG_SRC
      = (zero_points_init.get DNNL_ARG_SRC).set 1 .s32 0 zero_dims :=
  ⟨((C4_grouped_zero_point_cross_write zero_points_init DNNL_ARG_SRC 1 .s32 0
      zero_dims ⟨rfl, by simp [zero_points_init]⟩).1).2.2.2.2.2.2.2.1,
   (C4_grouped_zero_point_cross_write zero_points_init DNNL_ARG_SRC 1 .s32 0
      zero_dims ⟨rfl, by simp [zero_points_init]⟩).2 (by decide) (by decide)⟩

/-- C5 (confirmed, spec-modelled serialization): for every API-reachable
descriptor and descriptor set, deserializing its serialized image yields
a value structurally equal to the original under `operator==`, consuming
the whole stream. -/
theorem C5_round_trip :
    (∀ e, reachable_entry e → entry_round_trips e = true)
    ∧ (∀ s, reachable_set s → set_round_trips s = true) :=
  ⟨fun e h => entry_round_trips_of_wf e (reachable_entry_wf e h),
   fun s h => set_round_trips_of_wf s (reachable_set_swf s h).2⟩

/-- C5 (witness): the round-trip law evaluated at the default sentinel
descriptor and at a freshly constructed scale set. -/
theorem C5_round_trip_witness :
    entry_round_trips default_quant_entry = true
    ∧ set_round_trips scales_init = true :=
  ⟨C5_round_trip.1 default_quant_entry reachable_entry.default,
   C5_round_trip.2 scales_init reachable_set.scales_init⟩

/-- C6 (confirmed): `get_group(d)` returns 1 for every index when the
native group rank is zero; with a configured group rank `r > 0` it
returns 0 for `d ≥ r` and the stored group size `group_dims_[d]` for
`0 ≤ d < r`. -/
theorem C6_get_group (e : quant_entry_t) (d : Int) :
    (e.group_ndims_ = 0 → e.get_group d = 1)
    ∧ (0 < e.group_ndims_ → e.group_ndims_ ≤ d → e.get_group d = 0)
    ∧ (0 ≤ d → d < e.group_ndims_ →
        e.get_group d = e.group_dims_.getD d.toNat 0) := by
  refine ⟨fun h => ?_, fun h1 h2 => ?_, fun h1 h2 => ?_⟩
  · simp [quant_entry_t.get_group, h, default_quant_entry]
  · rw [quant_entry_t.get_group, if_neg (by simp [default_quant_entry]; omega),
      if_pos h2]
  · rw [quant_entry_t.get_group, if_neg (by simp [default_quant_entry]; omega),
      if_neg (by omega)]

/-- C6 (witness): a never-grouped descriptor answers 1 at index 5; a
rank-2 grouped descriptor answers 0 at index 2 and the stored size 7 at
index 0. -/
theorem C6_get_group_witness :
    default_quant_entry.get_group 5 = 1
    ∧ (default_quant_entry.set_zero_points_grouped (7 :: 9 :: List.replicate 10 0)
        2 .s8 3).get_group 2 = 0
    ∧ (default_quant_entry.set_zero_points_grouped (7 :: 9 :: List.replicate 10 0)
        2 .s8 3).get_group 0 = 7 :=
  ⟨(C6_get_group default_quant_entry 5).1 rfl,
   (C6_get_group (default_quant_entry.set_zero_points_grouped
      (7 :: 9 :: List.replicate 10 0) 2 .s8 3) 2).2.1 (by decide) (by decide),
   by
    rw [(C6_get_group (default_quant_entry.set_zero_points_grouped
      (7 :: 9 :: List.replicate 10 0) 2 .s8 3) 0).2.2 (by decide) (by decide)]
    decide⟩

/-- C7 (confirmed): `has_default_values(supported_args)` holds exactly
when every stored entry whose argument id is not among `supported_args`
has default values; a set whose only non-default entry sits at an exempt
id reports true, and the same set with no exemptions reports false. -/
theorem C7_has_default_values_supported (s : quant_entries_t)
    (supported_args : List Nat) (a : Nat) (e : quant_entry_t) :
    (s.has_default_values supported_args = true
      ↔ ∀ p ∈ s.entries_, p.1 ∉ supported_args → p.2.has_default_values = true)
    ∧ (s.entries_ = [(a, e)] → e.has_default_values = false →
      s.has_default_values [a] = true ∧ s.has_default_values [] = false) := by
  constructor
  · simp only [quant_entries_t.has_default_values,
      quant_entries_t.has_default_property, List.all_eq_true]
    constructor
    · intro h p hp hn
      rcases (Bool.or_eq_true _ _).mp (h p hp) with h3 | h3
      · exact h3
      · exact absurd (by simpa [List.contains] using h3) hn
    · intro h p hp
      by_cases hm : p.1 ∈ supported_args
      · simp [List.contains, hm]
      · simp [h p hp hm]
  · intro h1 h2
    constructor
    · simp [quant_entries_t.has_default_values,
        quant_entries_t.has_default_property, h1, List.contains]
    · simp [quant_entries_t.has_default_values,
        quant_entries_t.has_default_property, h1, h2]

/-- C7 (witness): a set whose only entry, at id 33, is non-default
reports `has_default_values([33]) = true` and
`has_default_values([]) = false`. -/
theorem C7_has_default_values_supported_witness :
    quant_entries_t.has_default_values
        ⟨[(33, default_quant_entry.set 1 .f32 0 zero_dims)], .f32⟩ [33] = true
    ∧ quant_entries_t.has_default_values
        ⟨[(33, default_quant_entry.set 1 .f32 0 zero_dims)], .f32⟩ [] = false :=
  (C7_has_default_values_supported
      ⟨[(33, default_quant_entry.set 1 .f32 0 zero_dims)], .f32⟩ [] 33
      (default_quant_entry.set 1 .f32 0 zero_dims)).2 rfl (by decide)

/-- C8 (confirmed, over API-reachable descriptors): a descriptor equals
the default sentinel (`has_default_values`) exactly when all three
configured flags `is_set_`, `is_set_scale`, `is_set_wei` are false. -/
theorem C8_default_iff_unset (e : quant_entry_t) (h : reachable_entry e) :
    e.has_default_values = true
      ↔ (e.is_set_ = false ∧ e.is_set_scale = false ∧ e.is_set_wei = false) := by
  constructor
  · intro hd
    simp only [quant_entry_t.has_default_values, quant_entry_t.equals,
      default_quant_entry, Bool.and_eq_true, beq_iff_eq] at hd
    exact ⟨by tauto, by tauto, by tauto⟩
  · rintro ⟨h1, h2, h3⟩
    obtain ⟨t, m, dt, gn, ms, dts, ns, mw, dtw, nw⟩ :=
      reachable_unset_default e h h1 h2 h3
    simp [quant_entry_t.has_default_values, quant_entry_t.equals,
      default_quant_entry, entry_type_NONE, t, m, dt, gn, ms, dts, ns, mw,
      dtw, nw, h1, h2, h3]

/-- C8 (witness): the equivalence evaluated at the default sentinel. -/
theorem C8_default_iff_unset_witness :
    default_quant_entry.has_default_values = true :=
  (C8_default_iff_unset default_quant_entry reachable_entry.default).mpr
    ⟨rfl, rfl, rfl⟩

/-- C9 (confirmed): assigning the default sentinel to a previously
configured argument id through `set(arg, other)` leaves that id present
as a key of the map, holding a default-valued entry; the resulting set
answers every per-argument query exactly like the set in which the
argument was never touched, yet `operator==` distinguishes the two
because it compares the key set as well as the values. -/
theorem C9_remove_keeps_key (s : quant_entries_t) (arg : Nat)
    (e0 : quant_entry_t) (hs : sorted_keys s.entries_ = true)
    (habs : map_find s.entries_ arg = none) :
    (map_find (((s.set_entry arg e0).2.set_entry arg
        default_quant_entry).2).entries_ arg).isSome = true
    ∧ (((s.set_entry arg e0).2.set_entry arg
        default_quant_entry).2.get arg).has_default_values = true
    ∧ (∀ a,
        ((s.set_entry arg e0).2.set_entry arg default_quant_entry).2.get_mask a
          = s.get_mask a
        ∧ ((s.set_entry arg e0).2.set_entry arg default_quant_entry).2.get_data_type a
          = s.get_data_type a
        ∧ ((s.set_entry arg e0).2.set_entry arg default_quant_entry).2.get_ndims a
          = s.get_ndims a
        ∧ ((s.set_entry arg e0).2.set_entry arg default_quant_entry).2.get_dims a
          = s.get_dims a
        ∧ (∀ d, ((s.set_entry arg e0).2.set_entry arg default_quant_entry).2.get_group a d
          = s.get_group a d)
        ∧ ((s.set_entry arg e0).2.set_entry arg default_quant_entry).2.has_default_values_arg a
          = s.has_default_values_arg a)
    ∧ ((s.set_entry arg e0).2.set_entry arg default_quant_entry).2.equals s
        = false := by
  have hs1 : sorted_keys (map_update s.entries_ arg
      (fun e => e.set_other e0)) = true := sorted_map_update _ _ _ hs
  have hfind1 : map_find (map_update s.entries_ arg
      (fun e => e.set_other e0)) arg
      = some (default_quant_entry.set_other e0) := by
    rw [map_find_update_self _ _ _ hs, habs]
    rfl
  have hfind2 : map_find (map_update (map_update s.entries_ arg
      (fun e => e.set_other e0)) arg
      (fun e => e.set_other default_quant_entry)) arg
      = some ((default_quant_entry.set_other e0).set_other
        default_quant_entry) := by
    rw [map_find_update_self _ _ _ hs1, hfind1]
    rfl
  have hfind2o : ∀ a, a ≠ arg →
      map_find (map_update (map_update s.entries_ arg
        (fun e => e.set_other e0)) arg
        (fun e => e.set_other default_quant_entry)) a
      = map_find s.entries_ a := by
    intro a ha
    rw [map_find_update_other _ _ _ _ ha, map_find_update_other _ _ _ _ ha]
  refine ⟨?_, ?_, ?_, ?_⟩
  · simp only [quant_entries_t.set_entry]
    rw [hfind2]
    rfl
  · simp only [quant_entries_t.set_entry, quant_entries_t.get]
    rw [hfind2]
    rfl
  · intro a
    by_cases ha : a = arg
    · subst ha
      simp only [quant_entries_t.get_mask, quant_entries_t.get_data_type,
        quant_entries_t.get_ndims, quant_entries_t.get_dims,
        quant_entries_t.get_group, quant_entries_t.has_default_values_arg,
        quant_entries_t.set_entry, quant_entries_t.get]
      rw [hfind2, habs]
      exact ⟨rfl, rfl, rfl, rfl, fun d => rfl, rfl⟩
    · simp only [quant_entries_t.get_mask, quant_entries_t.get_data_type,
        quant_entries_t.get_ndims, quant_entries_t.get_dims,
        quant_entries_t.get_group, quant_entries_t.has_default_values_arg,
        quant_entries_t.set_entry, quant_entries_t.get]
      rw [hfind2o a ha]
      exact ⟨rfl, rfl, rfl, rfl, fun d => rfl, rfl⟩
  · have hsome : (map_find (map_update s.entries_ arg
        (fun e => e.set_other e0)) arg).isSome = true := by
      rw [hfind1]; rfl
    have hlen2 : (map_update (map_update s.entries_ arg
        (fun e => e.set_other e0)) arg
        (fun e => e.set_other default_quant_entry)).length
        = s.entries_.length + 1 := by
      rw [map_update_length_present _ _ _ hs1 hsome,
        map_update_length_absent _ _ _ habs]
    simp only [quant_entries_t.equals, quant_entries_t.set_entry]
    cases hq : entries_eq (map_update (map_update s.entries_ arg
        (fun e => e.set_other e0)) arg
        (fun e => e.set_other default_quant_entry)) s.entries_
    · rfl
    · exact absurd (entries_eq_length _ _ hq) (by omega)

/-- C9 (witness): configuring id 33 on a fresh scale set, then assigning
the default sentinel to it, keeps 33 as a stored key. -/
theorem C9_remove_keeps_key_witness :
    (map_find ((((scales_init.set_entry 33
        (default_quant_entry.set_scales (4 :: List.replicate 11 0) 1 .f32 2)).2).set_entry
        33 default_quant_entry).2).entries_ 33).isSome = true
    ∧ (((scales_init.set_entry 33
        (default_quant_entry.set_scales (4 :: List.replicate 11 0) 1 .f32 2)).2.set_entry
        33 default_quant_entry).2).equals scales_init = false :=
  ⟨(C9_remove_keeps_key scales_init 33
      (default_quant_entry.set_scales (4 :: List.replicate 11 0) 1 .f32 2)
      rfl rfl).1,
   (C9_remove_keeps_key scales_init 33
      (default_quant_entry.set_scales (4 :: List.replicate 11 0) 1 .f32 2)
      rfl rfl).2.2.2⟩

/-- C10 (confirmed): the assign path `set(arg, other)` performs no
argument-validity check — it succeeds for every argument id and stores
the id as a key of the map, so even a policy-rejected id becomes an
enumerable key through this path. -/
theorem C10_set_entry_unchecked (s : quant_entries_t) (arg : Nat)
    (other : quant_entry_t) (hs : sorted_keys s.entries_ = true) :
    (s.set_entry arg other).1 = .success
    ∧ (map_find (s.set_entry arg other).2.entries_ arg).isSome = true := by
  refine ⟨rfl, ?_⟩
  simp only [quant_entries_t.set_entry]
  rw [map_find_update_self _ _ _ hs]
  rfl

/-- C10 (witness): id 999 is rejected by the scale policy's `check_arg`,
yet `set(999, other)` succeeds on a fresh scale set and stores 999 as a
key. -/
theorem C10_set_entry_unchecked_witness :
    scales_check_arg 999 = false
    ∧ (scales_init.set_entry 999 default_quant_entry).1 = .success
    ∧ (map_find (scales_init.set_entry 999
        default_quant_entry).2.entries_ 999).isSome = true :=
  ⟨by decide,
   (C10_set_entry_unchecked scales_init 999 default_quant_entry rfl).1,
   (C10_set_entry_unchecked scales_init 999 default_quant_entry rfl).2⟩

end OneDNNQuant
